import Mathlib

/-!
Verification of the CivicChain AI-insights pipeline.

The repository has two revisions of the serverless proxy
(`supabase/functions/get-ai-insights/index.ts`, DeepSeek vendor, and an
unnamed revision using the Gemini vendor) and three revisions of the
client widget (`src/components/budget/AiInsights.tsx` plus two revisions
in an unnamed file).  Each handler is embedded as a total Lean function
from its inputs (environment key, parsed request, a vendor oracle) to the
HTTP response it produces together with the list of outbound vendor calls
it performs.  JavaScript numeric coercion (`Number(x)`, `x || 0`, NaN and
Infinity propagation through `+`, `/`, `*`) is modelled explicitly.
-/

namespace CivicChain

/-- The JavaScript number domain relevant here: NaN, the two infinities,
or a finite value (modelled as a rational; the sign of zero is ignored). -/
inductive JNum where
  | nan
  | inf
  | ninf
  | val (q : ℚ)
deriving DecidableEq, Repr

namespace JNum

/-- JS addition (used by the `reduce` sum in the DeepSeek proxy):
NaN is absorbing, `Infinity + -Infinity` is NaN. -/
def add : JNum → JNum → JNum
  | nan, _ => nan
  | _, nan => nan
  | inf, ninf => nan
  | ninf, inf => nan
  | inf, _ => inf
  | _, inf => inf
  | ninf, _ => ninf
  | _, ninf => ninf
  | val a, val b => val (a + b)

/-- JS division: NaN absorbing, `±Infinity / ±Infinity = NaN`,
finite / 0 is a signed infinity (NaN at 0/0), finite / ±Infinity = 0. -/
def div : JNum → JNum → JNum
  | nan, _ => nan
  | _, nan => nan
  | inf, inf => nan
  | inf, ninf => nan
  | ninf, inf => nan
  | ninf, ninf => nan
  | inf, val b => if b < 0 then ninf else inf
  | ninf, val b => if b < 0 then inf else ninf
  | val _, inf => val 0
  | val _, ninf => val 0
  | val a, val b =>
      if b = 0 then (if 0 < a then inf else if a < 0 then ninf else nan)
      else val (a / b)

/-- Multiplication by the literal 100 (the percentage computation). -/
def mul100 : JNum → JNum
  | nan => nan
  | inf => inf
  | ninf => ninf
  | val a => val (a * 100)

/-- JS comparison `x > 0` (false on NaN and -Infinity). -/
def gtZero : JNum → Bool
  | nan => false
  | inf => true
  | ninf => false
  | val a => decide (0 < a)

/-- JS strict inequality `x !== 0` (true on NaN and the infinities). -/
def neZero : JNum → Bool
  | nan => true
  | inf => true
  | ninf => true
  | val a => decide (a ≠ 0)

/-- Is this value NaN? -/
def isNaN : JNum → Bool
  | nan => true
  | _ => false

/-- JS `x || 0` applied to a number: NaN and 0 are falsy and give 0,
everything else (including the infinities) is kept. -/
def orZero : JNum → JNum
  | nan => val 0
  | val a => if a = 0 then val 0 else val a
  | inf => inf
  | ninf => ninf

end JNum

/-- A JavaScript value sitting in an amount field of a budget row.  A
string is abstracted to its `Number(.)` image (so `"abc"` is
`str JNum.nan`, `""` is `str (JNum.val 0)`); `null` coerces to 0 and
`undefined` (an absent field) to NaN. -/
inductive JsVal where
  | num (n : JNum)
  | str (toNum : JNum)
  | null
  | undef
deriving DecidableEq, Repr

/-- JS `Number(x)` on the modelled value domain. -/
def jsNumber : JsVal → JNum
  | .num n => n
  | .str t => t
  | .null => .val 0
  | .undef => .nan

/-- The widget's boundary coercion `Number(x) || 0`. -/
def coerceAmount (v : JsVal) : JNum :=
  (jsNumber v).orZero

/-- JS truthiness of an optional string (`!s` is true when the field is
absent or the empty string). -/
def strFalsy : Option String → Bool
  | none => true
  | some s => s = ""

/-- JS `s || d` for an optional string field: the default is used when
the field is absent or the empty string. -/
def jsOrDefault (o : Option String) (d : String) : String :=
  match o with
  | none => d
  | some s => if s = "" then d else s

/-! ## HTTP response model

Every response body the two handlers build is one of the JSON object
shapes below; the OPTIONS pre-flight answer has a null body. -/

inductive JsonBody where
  /-- `null` body (the CORS pre-flight answer). -/
  | noBody
  /-- an object with a single `error` field. -/
  | errObj (error : String)
  /-- an object with `error` and `details` fields. -/
  | errDetails (error details : String)
  /-- an object with `error`, `status` and `details` fields
  (the Gemini handler's vendor-failure body). -/
  | errStatusDetails (error : String) (vendorStatus : Nat) (details : String)
  /-- an object with a single `insights` field. -/
  | insightsObj (insights : String)
deriving DecidableEq, Repr

/-- Is the body a structured JSON object (anything but the null body)? -/
def JsonBody.isStructured : JsonBody → Bool
  | .noBody => false
  | _ => true

structure HttpResponse where
  status : Nat
  body : JsonBody
deriving DecidableEq, Repr

/-- What one outbound `fetch` to the vendor does: either the promise
rejects (network failure; `msg` is the exception's message, also its
`String(.)` rendering), or an HTTP response arrives with an `ok` flag, a
status code, the raw body text (read in the failure branch) and the
optional generated-text field extracted from the parsed JSON (read in the
success branch; a success body that fails to parse as JSON is modelled by
`throws`, since it ends in the same catch). -/
inductive FetchResult where
  | throws (msg : String)
  | response (ok : Bool) (status : Nat) (bodyText : String) (content : Option String)
deriving DecidableEq, Repr

/-! ## DeepSeek proxy (`supabase/functions/get-ai-insights/index.ts`)

The handler: answer OPTIONS with the CORS headers; inside a try/catch,
read `DEEPSEEK_API_KEY` (missing ⇒ 500), parse the JSON body (throwing ⇒
the catch), require `budgetData` and `department` (falsy ⇒ 400), format
each row with a percentage share, build the prompt and POST it to the
vendor with the key in an `Authorization: Bearer` header, then map the
vendor outcome. -/

/-- One element of the `budgetData` array as the DeepSeek handler reads
it: a `category` (copied verbatim; modelled as a string) and an `amount`
(arbitrary JS value, coerced only inside the arithmetic). -/
structure DsItem where
  category : String
  amount : JsVal
deriving DecidableEq, Repr

/-- The parsed inbound body: `req.json()` either throws (malformed JSON,
carrying the exception message) or yields an object whose `budgetData`
and `department` fields may each be absent.  A present `budgetData` is
modelled as a list (a non-array value would throw at `.map`, landing in
the same catch as `malformed`). -/
inductive DsBody where
  | malformed (msg : String)
  | parsed (budgetData : Option (List DsItem)) (department : Option String)
deriving DecidableEq, Repr

/-- One row of `formattedData` as embedded in the prompt.  In the source
the `percentage` field is the string `(...).toFixed(1)`; it is carried
here as the numeric value being formatted (`toFixed` yields the string
"NaN" exactly when this value is NaN). -/
structure DsFormattedRow where
  category : String
  amount : JsVal
  percentage : JNum
deriving DecidableEq, Repr

/-- The outbound vendor call: the secret key (sent in the Authorization
header) and the data the prompt string is built from. -/
structure DsOutCall where
  authBearerKey : String
  promptDept : String
  promptRows : List DsFormattedRow
deriving DecidableEq, Repr

/-- `formattedData`: each row keeps its category and raw amount and gains
`percentage = (item.amount / Σ Number(b.amount)) * 100`.  The numerator
is the raw `item.amount` (coerced by the division itself), and only the
summands are wrapped in `Number(.)`, exactly as in the source. -/
def dsFormat (budgetData : List DsItem) : List DsFormattedRow :=
  let total := budgetData.foldl (fun sum b => sum.add (jsNumber b.amount)) (.val 0)
  budgetData.map (fun item =>
    { category := item.category
      amount := item.amount
      percentage := ((jsNumber item.amount).div total).mul100 })

/-- The DeepSeek handler.  `env` is `Deno.env.get "DEEPSEEK_API_KEY"`,
`isOptions` whether the request method is OPTIONS, `vendor` the oracle
answering the outbound fetch.  Returns the response and the list of
outbound vendor calls performed. -/
def deepseekHandler (env : Option String) (isOptions : Bool) (body : DsBody)
    (vendor : DsOutCall → FetchResult) : HttpResponse × List DsOutCall :=
  if isOptions then
    (⟨200, .noBody⟩, [])
  else if strFalsy env then
    (⟨500, .errObj "DeepSeek API key not configured"⟩, [])
  else
    match body with
    | .malformed msg =>
        (⟨500, .errDetails "Internal server error" msg⟩, [])
    | .parsed budgetData department =>
        if budgetData.isNone || strFalsy department then
          (⟨400, .errObj "Budget data and department are required"⟩, [])
        else
          let call : DsOutCall :=
            { authBearerKey := env.getD ""
              promptDept := department.getD ""
              promptRows := dsFormat (budgetData.getD []) }
          match vendor call with
          | .throws msg =>
              (⟨500, .errDetails "Internal server error" msg⟩, [call])
          | .response ok status bodyText content =>
              if ok then
                (⟨200, .insightsObj (jsOrDefault content "No insights returned.")⟩, [call])
              else
                (⟨status, .errDetails "Failed to get AI insights from DeepSeek" bodyText⟩, [call])

/-! ## Gemini proxy (unnamed revision)

The handler: inside a try/catch, parse the body and require a non-empty
string `prompt` (otherwise 400); read `GEMINI_API_KEY` (missing ⇒ 500);
POST the prompt to the vendor with the key as a URL query parameter; on a
non-ok vendor response answer 500 with the vendor status inside the JSON
body; on success extract the generated text (with a placeholder default);
the catch answers 500 with the exception's message. -/

/-- The `prompt` field of the parsed body: absent, a string, or some
non-string value (which fails the `typeof` check). -/
inductive GmPromptField where
  | absent
  | strVal (s : String)
  | nonStr
deriving DecidableEq, Repr

inductive GmBody where
  | malformed (msg : String)
  | parsed (prompt : GmPromptField)
deriving DecidableEq, Repr

/-- Does the prompt pass `!prompt || typeof prompt !== "string"`?
Only a non-empty string does (the empty string is falsy). -/
def gmPromptValid : GmPromptField → Bool
  | .strVal s => s ≠ ""
  | _ => false

/-- The outbound Gemini call: the key is interpolated into the request
URL as a query parameter, the prompt into the JSON body. -/
structure GmOutCall where
  urlKey : String
  promptText : String
deriving DecidableEq, Repr

/-- The Gemini handler.  Same conventions as `deepseekHandler`; the
content field of a vendor response models
`data.candidates[0].content.parts[0].text`. -/
def geminiHandler (env : Option String) (body : GmBody)
    (vendor : GmOutCall → FetchResult) : HttpResponse × List GmOutCall :=
  match body with
  | .malformed msg =>
      (⟨500, .errDetails "Edge Function crashed" (jsOrDefault (some msg) "Unknown error")⟩, [])
  | .parsed prompt =>
      if !gmPromptValid prompt then
        (⟨400, .errObj "Invalid or missing prompt"⟩, [])
      else if strFalsy env then
        (⟨500, .errObj "Server misconfigured: Missing GEMINI_API_KEY"⟩, [])
      else
        let call : GmOutCall :=
          { urlKey := env.getD ""
            promptText := match prompt with | .strVal s => s | _ => "" }
        match vendor call with
        | .throws msg =>
            (⟨500, .errDetails "Edge Function crashed" (jsOrDefault (some msg) "Unknown error")⟩,
             [call])
        | .response ok status bodyText content =>
            if ok then
              (⟨200, .insightsObj (jsOrDefault content "No insights generated.")⟩, [call])
            else
              (⟨500, .errStatusDetails "Gemini API call failed" status bodyText⟩, [call])

/-! ## Widget revisions

Three revisions of the `getAiInsights` click handler are attested:

* `AiInsights.tsx` — transforms the rows (coercing amounts) and sends all
  of them in a prompt-shaped body, with no validity filter;
* the "filter" revision (unnamed file, first part) — additionally filters
  rows by `allocated > 0 || spent > 0 || remaining > 0` and short-circuits
  with a "No Valid Data" toast when nothing survives;
* the "structured" revision (unnamed file, second part) — filters by
  `!== 0` on any amount and sends a structured body
  with `department`, `ward`, `year` and the surviving rows.

Each is embedded as a function from the input props and an invoke oracle
(standing for `supabase.functions.invoke`) to the calls issued, the toast
shown and the final insights state. -/

/-- A budget row as typed in `AiInsights.tsx` and the filter revision. -/
structure BudgetItem where
  account : String
  glcode : String
  account_b : String
  budget_a : JsVal
  used_amt : JsVal
  remaining_amt : JsVal
deriving DecidableEq, Repr

/-- A transformed row (tsx and filter revisions): amounts coerced by
`Number(x) || 0`. -/
structure TransformedRow where
  account : String
  glcode : String
  description : String
  allocated : JNum
  spent : JNum
  remaining : JNum
deriving DecidableEq, Repr

/-- The per-row transform shared by the tsx and filter revisions. -/
def transformRow (item : BudgetItem) : TransformedRow :=
  { account := item.account
    glcode := item.glcode
    description := item.account_b
    allocated := coerceAmount item.budget_a
    spent := coerceAmount item.used_amt
    remaining := coerceAmount item.remaining_amt }

/-- A budget row as typed in the structured revision. -/
structure BudgetItem2 where
  id : String
  glcode : String
  account_budget : JsVal
  used_amt : JsVal
  remaining_amt : JsVal
deriving DecidableEq, Repr

/-- A transformed row of the structured revision. -/
structure TransformedRow2 where
  glcode : String
  account_budget : JNum
  used_amt : JNum
  remaining_amt : JNum
deriving DecidableEq, Repr

def transformRow2 (item : BudgetItem2) : TransformedRow2 :=
  { glcode := item.glcode
    account_budget := coerceAmount item.account_budget
    used_amt := coerceAmount item.used_amt
    remaining_amt := coerceAmount item.remaining_amt }

/-- The body handed to `supabase.functions.invoke`.  The tsx and filter
revisions send a single `prompt` string built from the listed rows (the
prompt text is a fixed template around their JSON rendering, so it is
carried structurally); the structured revision sends the context fields
and the row list. -/
inductive InvokeBody where
  | promptBody (rows : List TransformedRow)
  | structuredBody (department ward : String) (year : Nat) (budgetData : List TransformedRow2)
deriving DecidableEq, Repr

/-- The `\x7bdata, error\x7d` pair `invoke` resolves with: a non-null
`error`, or a success whose `data?.insights` field may be absent. -/
inductive InvokeResult where
  | err (msg : String)
  | ok (insights : Option String)
deriving DecidableEq, Repr

/-- The toast notifications the widget can show. -/
inductive ToastKind where
  | noDataFound
  | noValidData
  | analysisComplete
  | noInsightsGenerated
  | analysisFailed
deriving DecidableEq, Repr

/-- Observable outcome of one click: the invoke calls issued (in order),
the toast shown (if any), and the final `insights` state. -/
structure WidgetRun where
  calls : List InvokeBody
  toast : Option ToastKind
  insightsShown : String
deriving DecidableEq, Repr

/-- JS truthiness of `data?.insights` (`none` when `data` is null or the
field is missing; the empty string is falsy). -/
def insightsTruthy : Option String → Bool
  | none => false
  | some s => s ≠ ""

/-- `AiInsights.tsx` revision: no validity filter; on success-without-
insights it sets a placeholder string and shows no toast.  `budgetData`
is `none` when the prop is null/undefined. -/
def getAiInsights_tsx (budgetData : Option (List BudgetItem))
    (invoke : InvokeBody → InvokeResult) : WidgetRun :=
  match budgetData with
  | none => ⟨[], some .noDataFound, ""⟩
  | some rows =>
      if rows.isEmpty then
        ⟨[], some .noDataFound, ""⟩
      else
        let transformed := rows.map transformRow
        let body := InvokeBody.promptBody transformed
        match invoke body with
        | .err _ => ⟨[body], some .analysisFailed, ""⟩
        | .ok ins =>
            if insightsTruthy ins then
              ⟨[body], some .analysisComplete, ins.getD ""⟩
            else
              ⟨[body], none, "No insights were generated."⟩

/-- Does a transformed row survive the filter revision's validity filter
`allocated > 0 || spent > 0 || remaining > 0`? -/
def rowValidPos (r : TransformedRow) : Bool :=
  r.allocated.gtZero || r.spent.gtZero || r.remaining.gtZero

/-- Filter revision: keeps only rows with a strictly positive amount and
short-circuits with the "No Valid Data" toast when none survives. -/
def getAiInsights_filter (budgetData : Option (List BudgetItem))
    (invoke : InvokeBody → InvokeResult) : WidgetRun :=
  match budgetData with
  | none => ⟨[], some .noDataFound, ""⟩
  | some rows =>
      if rows.isEmpty then
        ⟨[], some .noDataFound, ""⟩
      else
        let validBudget := (rows.map transformRow).filter rowValidPos
        if validBudget.isEmpty then
          ⟨[], some .noValidData, ""⟩
        else
          let body := InvokeBody.promptBody validBudget
          match invoke body with
          | .err _ => ⟨[body], some .analysisFailed, ""⟩
          | .ok ins =>
              if insightsTruthy ins then
                ⟨[body], some .analysisComplete, ins.getD ""⟩
              else
                ⟨[body], some .noInsightsGenerated, ""⟩

/-- Does a transformed row survive the structured revision's filter
`account_budget !== 0 || used_amt !== 0 || remaining_amt !== 0`? -/
def rowValidNz (r : TransformedRow2) : Bool :=
  r.account_budget.neZero || r.used_amt.neZero || r.remaining_amt.neZero

/-- Structured revision: filters by `!== 0`, then sends a structured body
with `department`, `ward` and `year || currentYear` (`year` falsy, i.e.
absent or 0, falls back to the current year). -/
def getAiInsights_structured (budgetData : Option (List BudgetItem2))
    (department ward : String) (year : Option Nat) (currentYear : Nat)
    (invoke : InvokeBody → InvokeResult) : WidgetRun :=
  match budgetData with
  | none => ⟨[], some .noDataFound, ""⟩
  | some rows =>
      if rows.isEmpty then
        ⟨[], some .noDataFound, ""⟩
      else
        let validBudget := (rows.map transformRow2).filter rowValidNz
        if validBudget.isEmpty then
          ⟨[], some .noValidData, ""⟩
        else
          let yr := match year with
            | none => currentYear
            | some y => if y = 0 then currentYear else y
          let body := InvokeBody.structuredBody department ward yr validBudget
          match invoke body with
          | .err _ => ⟨[body], some .analysisFailed, ""⟩
          | .ok ins =>
              if insightsTruthy ins then
                ⟨[body], some .analysisComplete, ins.getD ""⟩
              else
                ⟨[body], some .noInsightsGenerated, ""⟩

/-! ## Claims -/

/-- C9: for every empty or absent `budgetData` list, each of the three
widget revisions issues no network call to the Proxy and shows the
no-data notification, before any transformation or invocation. -/
theorem c9_empty_budget_no_call :
    ∀ invoke : InvokeBody → InvokeResult,
      getAiInsights_tsx none invoke = ⟨[], some .noDataFound, ""⟩ ∧
      getAiInsights_tsx (some []) invoke = ⟨[], some .noDataFound, ""⟩ ∧
      getAiInsights_filter none invoke = ⟨[], some .noDataFound, ""⟩ ∧
      getAiInsights_filter (some []) invoke = ⟨[], some .noDataFound, ""⟩ ∧
      (∀ dept ward yr cy,
        getAiInsights_structured none dept ward yr cy invoke = ⟨[], some .noDataFound, ""⟩ ∧
        getAiInsights_structured (some []) dept ward yr cy invoke =
          ⟨[], some .noDataFound, ""⟩) := by
  intro invoke
  refine ⟨rfl, rfl, rfl, rfl, fun dept ward yr cy => ⟨rfl, rfl⟩⟩

/-- C1 counterexample: with the Gemini key absent from the environment,
an inbound request whose body lacks a `prompt` is answered 400 (the
validation error), not 500 with a key-not-configured body, so the claim's
"for every inbound request" quantification fails. -/
theorem c1_counterexample :
    (geminiHandler none (.parsed .absent) (fun _ => .throws "")).1.status = 400 ∧
    ¬ (geminiHandler none (.parsed .absent) (fun _ => .throws "")).1.status = 500 := by
  decide

/-- C1 amended: with the vendor key absent (or empty, which JS treats as
missing), both proxies perform zero outbound vendor calls on every
request; the DeepSeek proxy answers every non-OPTIONS request 500 with
its key-not-configured body, and the Gemini proxy answers every request
carrying a valid prompt 500 with its key-missing body (requests failing
Gemini's prompt validation are answered 400 first). -/
theorem c1_amended (env : Option String) (h : strFalsy env = true) :
    (∀ isOpt body vendor, (deepseekHandler env isOpt body vendor).2 = []) ∧
    (∀ body vendor, (geminiHandler env body vendor).2 = []) ∧
    (∀ body vendor, (deepseekHandler env false body vendor).1 =
        ⟨500, .errObj "DeepSeek API key not configured"⟩) ∧
    (∀ p vendor, gmPromptValid p = true →
        (geminiHandler env (.parsed p) vendor).1 =
        ⟨500, .errObj "Server misconfigured: Missing GEMINI_API_KEY"⟩) := by
  refine ⟨?_, ?_, ?_, ?_⟩
  · intro isOpt body vendor
    cases isOpt <;> simp [deepseekHandler, h]
  · intro body vendor
    cases body with
    | malformed msg => rfl
    | parsed p =>
        by_cases hp : gmPromptValid p = true <;>
          simp [geminiHandler, h, hp]
  · intro body vendor
    simp [deepseekHandler, h]
  · intro p vendor hp
    simp [geminiHandler, h, hp]

/-- C1 witness: with no key in the environment, a concrete DeepSeek
request gets the 500 key-not-configured answer and a concrete valid
Gemini request performs no outbound call. -/
theorem c1_amended_witness :
    (deepseekHandler none false (.parsed none none) (fun _ => .throws "")).1 =
      ⟨500, .errObj "DeepSeek API key not configured"⟩ ∧
    (geminiHandler none (.parsed (.strVal "p")) (fun _ => .throws "")).2 = [] :=
  ⟨(c1_amended none rfl).2.2.1 (.parsed none none) (fun _ => .throws ""),
   (c1_amended none rfl).2.1 (.parsed (.strVal "p")) (fun _ => .throws "")⟩

/-- A non-empty string is truthy. -/
theorem strFalsy_some_ne (s : String) (h : s ≠ "") : strFalsy (some s) = false := by
  simp [strFalsy, h]

/-- C2: the key never reaches a response.  For any two configured key
values, as long as the vendor's answers depend only on the prompt data
(not on the credential it receives), every response of either proxy is
identical in the two runs — so no Proxy-generated response depends on,
or can contain, the key — and the key appears exactly in the outbound
call's Authorization credential (DeepSeek) or URL query key (Gemini). -/
theorem c2_key_confinement (k1 k2 : String) (h1 : k1 ≠ "") (h2 : k2 ≠ "")
    (dsVendor : DsOutCall → FetchResult)
    (hds : ∀ c1 c2 : DsOutCall, c1.promptDept = c2.promptDept →
        c1.promptRows = c2.promptRows → dsVendor c1 = dsVendor c2)
    (gmVendor : GmOutCall → FetchResult)
    (hgm : ∀ c1 c2 : GmOutCall, c1.promptText = c2.promptText →
        gmVendor c1 = gmVendor c2) :
    (∀ isOpt body, (deepseekHandler (some k1) isOpt body dsVendor).1 =
        (deepseekHandler (some k2) isOpt body dsVendor).1) ∧
    (∀ body, (geminiHandler (some k1) body gmVendor).1 =
        (geminiHandler (some k2) body gmVendor).1) ∧
    (∀ isOpt body c, c ∈ (deepseekHandler (some k1) isOpt body dsVendor).2 →
        c.authBearerKey = k1) ∧
    (∀ body c, c ∈ (geminiHandler (some k1) body gmVendor).2 → c.urlKey = k1) := by
  have hkey1 : strFalsy (some k1) = false := strFalsy_some_ne _ h1
  have hkey2 : strFalsy (some k2) = false := strFalsy_some_ne _ h2
  refine ⟨?_, ?_, ?_, ?_⟩
  · intro isOpt body
    cases isOpt with
    | true => rfl
    | false =>
        cases body with
        | malformed msg => simp [deepseekHandler, hkey1, hkey2]
        | parsed bd dept =>
            simp only [deepseekHandler, hkey1, hkey2, Bool.false_eq_true,
              if_false, Option.getD_some]
            by_cases hv : (bd.isNone || strFalsy dept) = true
            · rw [if_pos hv, if_pos hv]
            · rw [if_neg hv, if_neg hv]
              have hvend : dsVendor ⟨k2, dept.getD "", dsFormat (bd.getD [])⟩ =
                  dsVendor ⟨k1, dept.getD "", dsFormat (bd.getD [])⟩ := hds _ _ rfl rfl
              rw [hvend]
              cases dsVendor ⟨k1, dept.getD "", dsFormat (bd.getD [])⟩ with
              | throws msg => rfl
              | response ok st bt ct => cases ok <;> rfl
  · intro body
    cases body with
    | malformed msg => rfl
    | parsed p =>
        cases p with
        | absent => rfl
        | nonStr => rfl
        | strVal s =>
            by_cases hs : s = ""
            · subst hs; rfl
            · have hval : gmPromptValid (.strVal s) = true := by
                simp [gmPromptValid, hs]
              have hvend : gmVendor ⟨k2, s⟩ = gmVendor ⟨k1, s⟩ := hgm _ _ rfl
              simp only [geminiHandler, hval, Bool.not_true, Bool.false_eq_true,
                if_false, hkey1, hkey2, Option.getD_some]
              rw [hvend]
              cases gmVendor ⟨k1, s⟩ with
              | throws msg => rfl
              | response ok st bt ct => cases ok <;> rfl
  · intro isOpt body c hc
    cases isOpt with
    | true => simp [deepseekHandler] at hc
    | false =>
        cases body with
        | malformed msg => simp [deepseekHandler, hkey1] at hc
        | parsed bd dept =>
            simp only [deepseekHandler, hkey1, Bool.false_eq_true, if_false,
              Option.getD_some] at hc
            by_cases hv : (bd.isNone || strFalsy dept) = true
            · rw [if_pos hv] at hc
              simp at hc
            · rw [if_neg hv] at hc
              revert hc
              cases dsVendor ⟨k1, dept.getD "", dsFormat (bd.getD [])⟩ with
              | throws msg =>
                  intro hc
                  simp only [List.mem_singleton] at hc
                  subst hc; rfl
              | response ok st bt ct =>
                  cases ok <;> (intro hc; simp at hc; subst hc; rfl)
  · intro body c hc
    cases body with
    | malformed msg => simp [geminiHandler] at hc
    | parsed p =>
        cases p with
        | absent => simp [geminiHandler, gmPromptValid] at hc
        | nonStr => simp [geminiHandler, gmPromptValid] at hc
        | strVal s =>
            by_cases hs : s = ""
            · subst hs
              simp [geminiHandler, gmPromptValid] at hc
            · have hval : gmPromptValid (.strVal s) = true := by
                simp [gmPromptValid, hs]
              simp only [geminiHandler, hval, Bool.not_true, Bool.false_eq_true,
                if_false, hkey1, Option.getD_some] at hc
              revert hc
              cases gmVendor ⟨k1, s⟩ with
              | throws msg =>
                  intro hc
                  simp only [List.mem_singleton] at hc
                  subst hc; rfl
              | response ok st bt ct =>
                  cases ok <;> (intro hc; simp at hc; subst hc; rfl)

/-- C2 witness: two concrete runs differing only in the key value yield
the same response, and the concrete outbound call carries the key. -/
theorem c2_key_confinement_witness :
    (deepseekHandler (some "key-one") false
        (.parsed (some [⟨"cat", .num (.val 5)⟩]) (some "Roads"))
        (fun _ => .response true 200 "" (some "text"))).1 =
    (deepseekHandler (some "key-two") false
        (.parsed (some [⟨"cat", .num (.val 5)⟩]) (some "Roads"))
        (fun _ => .response true 200 "" (some "text"))).1 :=
  (c2_key_confinement "key-one" "key-two" (by decide) (by decide)
      (fun _ => .response true 200 "" (some "text")) (fun _ _ _ _ => rfl)
      (fun _ => .response true 200 "" (some "text")) (fun _ _ _ => rfl)).1
    false (.parsed (some [⟨"cat", .num (.val 5)⟩]) (some "Roads"))

/-- C3 counterexample: the Gemini proxy does NOT pass the vendor's
status through — with a configured key and a valid prompt, a vendor
HTTP 429 yields a Proxy response with status 500, not 429 (the vendor
status is only embedded inside the JSON body). -/
theorem c3_counterexample :
    (geminiHandler (some "k") (.parsed (.strVal "p"))
        (fun _ => .response false 429 "quota exceeded" none)).1 =
      ⟨500, .errStatusDetails "Gemini API call failed" 429 "quota exceeded"⟩ ∧
    ¬ (geminiHandler (some "k") (.parsed (.strVal "p"))
        (fun _ => .response false 429 "quota exceeded" none)).1.status = 429 := by
  refine ⟨rfl, by decide⟩

/-- C3 amended: on a vendor HTTP failure the DeepSeek proxy passes the
vendor's status code through with an error/details body whose details
are the vendor's raw error body (in particular 429 stays 429); the
Gemini proxy instead always answers 500, carrying the vendor status and
raw body inside its JSON; and on any proxy error the Widget (filter and
tsx revisions alike) shows its generic analysis-failed notification —
no distinct quota-limit notification exists in the code. -/
theorem c3_amended
    (k : String) (hk : k ≠ "") (bd : List DsItem) (dept : String) (hd : dept ≠ "")
    (st : Nat) (bodyText : String) (content : Option String)
    (s : String) (hs : s ≠ "")
    (rows : List BudgetItem) (hv : (rows.map transformRow).filter rowValidPos ≠ [])
    (msg : String) :
    (deepseekHandler (some k) false (.parsed (some bd) (some dept))
        (fun _ => .response false st bodyText content)).1 =
      ⟨st, .errDetails "Failed to get AI insights from DeepSeek" bodyText⟩ ∧
    (geminiHandler (some k) (.parsed (.strVal s))
        (fun _ => .response false st bodyText content)).1 =
      ⟨500, .errStatusDetails "Gemini API call failed" st bodyText⟩ ∧
    (getAiInsights_filter (some rows) (fun _ => .err msg)).toast =
      some .analysisFailed ∧
    (getAiInsights_tsx (some rows) (fun _ => .err msg)).toast =
      some .analysisFailed := by
  have hkey : strFalsy (some k) = false := strFalsy_some_ne _ hk
  have hdept : strFalsy (some dept) = false := strFalsy_some_ne _ hd
  have hrows : rows ≠ [] := by
    intro h0
    subst h0
    simp at hv
  refine ⟨?_, ?_, ?_, ?_⟩
  · simp [deepseekHandler, hkey, hdept]
  · have hval : gmPromptValid (.strVal s) = true := by simp [gmPromptValid, hs]
    simp [geminiHandler, hkey, hval]
  · simp [getAiInsights_filter, hrows, List.isEmpty_iff, hv]
  · simp [getAiInsights_tsx, hrows, List.isEmpty_iff]

/-- C3 witness: concrete instances of the amended behaviors: DeepSeek
passes a vendor 429 through; the filter-revision widget answers a proxy
error with the generic failure toast. -/
theorem c3_amended_witness :
    (deepseekHandler (some "k") false
        (.parsed (some []) (some "Roads"))
        (fun _ => .response false 429 "rate limited" none)).1 =
      ⟨429, .errDetails "Failed to get AI insights from DeepSeek" "rate limited"⟩ ∧
    (getAiInsights_filter
        (some [⟨"a", "g", "d", .num (.val 7), .num (.val 0), .num (.val 0)⟩])
        (fun _ => .err "boom")).toast = some .analysisFailed := by
  have h := c3_amended "k" (by decide) [] "Roads" (by decide) 429 "rate limited" none
    "p" (by decide)
    [⟨"a", "g", "d", .num (.val 7), .num (.val 0), .num (.val 0)⟩] (by decide) "boom"
  exact ⟨h.1, h.2.2.1⟩

/-- C4 counterexample: the DeepSeek proxy checks the key BEFORE
validating the body, so with the key absent a request missing both
`budgetData` and `department` is answered 500 (key not configured), not
400 — the claimed Validated-before-KeyMissing ordering fails. -/
theorem c4_counterexample :
    (deepseekHandler none false (.parsed none none) (fun _ => .throws "")).1 =
      ⟨500, .errObj "DeepSeek API key not configured"⟩ ∧
    ¬ (deepseekHandler none false (.parsed none none) (fun _ => .throws "")).1.status
        = 400 := by
  refine ⟨rfl, by decide⟩

/-- C4 amended: a body lacking the required fields is answered HTTP 400
with an error object — by the Gemini proxy regardless of whether its key
is configured (it validates first), and by the DeepSeek proxy only once
its key check has passed (the DeepSeek proxy checks the key before
validation). -/
theorem c4_amended (env : Option String) (p : GmPromptField)
    (hp : gmPromptValid p = false)
    (k : String) (hk : k ≠ "")
    (bd : Option (List DsItem)) (dept : Option String)
    (hmiss : (bd.isNone || strFalsy dept) = true) :
    (∀ vendor, (geminiHandler env (.parsed p) vendor).1 =
        ⟨400, .errObj "Invalid or missing prompt"⟩) ∧
    (∀ vendor, (deepseekHandler (some k) false (.parsed bd dept) vendor).1 =
        ⟨400, .errObj "Budget data and department are required"⟩) := by
  have hkey : strFalsy (some k) = false := strFalsy_some_ne _ hk
  refine ⟨?_, ?_⟩
  · intro vendor
    simp [geminiHandler, hp]
  · intro vendor
    simp only [deepseekHandler, hkey, Bool.false_eq_true, if_false]
    rw [if_pos hmiss]

/-- C4 witness: with no key configured the Gemini proxy still answers a
promptless body 400; with a key configured the DeepSeek proxy answers a
department-less body 400. -/
theorem c4_amended_witness :
    (geminiHandler none (.parsed .absent) (fun _ => .throws "")).1 =
      ⟨400, .errObj "Invalid or missing prompt"⟩ ∧
    (deepseekHandler (some "k") false (.parsed (some []) none)
        (fun _ => .throws "")).1 =
      ⟨400, .errObj "Budget data and department are required"⟩ := by
  have h := c4_amended none .absent rfl "k" (by decide) (some []) none rfl
  exact ⟨h.1 (fun _ => .throws ""), h.2 (fun _ => .throws "")⟩

/-- C5 counterexample: on an unexpected exception (here a malformed JSON
body) the Gemini proxy answers 500 with error field "Edge Function
crashed" and `err.message` as details — not the claimed
`error = "Internal server error"` with the stringified exception. -/
theorem c5_counterexample :
    (geminiHandler (some "k") (.malformed "boom") (fun _ => .throws "")).1 =
      ⟨500, .errDetails "Edge Function crashed" "boom"⟩ ∧
    ¬ (geminiHandler (some "k") (.malformed "boom") (fun _ => .throws "")).1.body
        = .errDetails "Internal server error" "boom" := by
  refine ⟨rfl, by decide⟩

/-- C5 amended: no exception escapes either handler — every code path
returns a response, and that response carries a structured JSON body
(except the DeepSeek OPTIONS pre-flight, whose body is null by design).
On an unexpected exception the DeepSeek proxy answers 500 with
error "Internal server error" and the stringified exception as details,
while the Gemini proxy answers 500 with error "Edge Function crashed"
and the exception's message (or "Unknown error" when it is empty). -/
theorem c5_amended (k : String) (hk : k ≠ "") (msg : String) :
    (∀ env isOpt body vendor,
        (deepseekHandler env isOpt body vendor).1.body.isStructured = true ∨
          isOpt = true) ∧
    (∀ env body vendor,
        (geminiHandler env body vendor).1.body.isStructured = true) ∧
    (deepseekHandler (some k) false (.malformed msg) (fun _ => .throws "")).1 =
      ⟨500, .errDetails "Internal server error" msg⟩ ∧
    (∀ bd dept, dept ≠ "" →
        (deepseekHandler (some k) false (.parsed (some bd) (some dept))
            (fun _ => .throws msg)).1 =
          ⟨500, .errDetails "Internal server error" msg⟩) ∧
    (geminiHandler (some k) (.malformed msg) (fun _ => .throws "")).1 =
      ⟨500, .errDetails "Edge Function crashed" (jsOrDefault (some msg) "Unknown error")⟩ ∧
    (∀ s, s ≠ "" →
        (geminiHandler (some k) (.parsed (.strVal s)) (fun _ => .throws msg)).1 =
          ⟨500, .errDetails "Edge Function crashed"
            (jsOrDefault (some msg) "Unknown error")⟩) := by
  have hkey : strFalsy (some k) = false := strFalsy_some_ne _ hk
  refine ⟨?_, ?_, ?_, ?_, ?_, ?_⟩
  · intro env isOpt body vendor
    cases isOpt with
    | true => right; rfl
    | false =>
        left
        by_cases he : strFalsy env = true
        · simp [deepseekHandler, he, JsonBody.isStructured]
        · rw [Bool.not_eq_true] at he
          cases body with
          | malformed m => simp [deepseekHandler, he, JsonBody.isStructured]
          | parsed bd dept =>
              simp only [deepseekHandler, he, Bool.false_eq_true, if_false]
              by_cases hv : (bd.isNone || strFalsy dept) = true
              · rw [if_pos hv]; rfl
              · rw [if_neg hv]
                cases vendor ⟨env.getD "", dept.getD "", dsFormat (bd.getD [])⟩ with
                | throws m => rfl
                | response ok st bt ct => cases ok <;> rfl
  · intro env body vendor
    cases body with
    | malformed m => rfl
    | parsed p =>
        cases p with
        | absent => rfl
        | nonStr => rfl
        | strVal s =>
            by_cases hs : s = ""
            · subst hs; rfl
            · have hval : gmPromptValid (.strVal s) = true := by
                simp [gmPromptValid, hs]
              simp only [geminiHandler, hval, Bool.not_true, Bool.false_eq_true,
                if_false]
              by_cases he : strFalsy env = true
              · rw [if_pos he]; rfl
              · rw [if_neg he]
                cases vendor ⟨env.getD "", s⟩ with
                | throws m => rfl
                | response ok st bt ct => cases ok <;> rfl
  · simp [deepseekHandler, hkey]
  · intro bd dept hd
    have hdept : strFalsy (some dept) = false := strFalsy_some_ne _ hd
    simp [deepseekHandler, hkey, hdept]
  · rfl
  · intro s hs
    have hval : gmPromptValid (.strVal s) = true := by simp [gmPromptValid, hs]
    simp [geminiHandler, hkey, hval]

/-- C5 witness: concrete malformed-body and network-failure runs of both
proxies produce the structured 500 answers of the amended claim. -/
theorem c5_amended_witness :
    (deepseekHandler (some "k") false (.malformed "bad json")
        (fun _ => .throws "")).1 =
      ⟨500, .errDetails "Internal server error" "bad json"⟩ ∧
    (geminiHandler (some "k") (.parsed (.strVal "p"))
        (fun _ => .throws "net down")).1 =
      ⟨500, .errDetails "Edge Function crashed" "net down"⟩ := by
  have h := c5_amended "k" (by decide) "bad json"
  have h2 := c5_amended "k" (by decide) "net down"
  exact ⟨h.2.2.1, h2.2.2.2.2.2 "p" (by decide)⟩

/-- Helper: if no transformed row passes the positivity filter, the
filter revision short-circuits with the No Valid Data toast and issues
no call. -/
theorem filter_noValidData (rows : List BudgetItem) (hne : rows ≠ [])
    (hnp : ∀ r ∈ rows, rowValidPos (transformRow r) = false) :
    ∀ invoke, getAiInsights_filter (some rows) invoke =
      ⟨[], some .noValidData, ""⟩ := by
  intro invoke
  have hie : rows.isEmpty = false := by
    cases rows with
    | nil => exact absurd rfl hne
    | cons a l => rfl
  have hfe : (rows.map transformRow).filter rowValidPos = [] := by
    refine List.filter_eq_nil_iff.2 ?_
    intro a ha
    rcases List.mem_map.1 ha with ⟨r, hr, hra⟩
    rw [← hra]
    simp [hnp r hr]
  simp [getAiInsights_filter, hie, hfe]

/-- Helper: if no transformed row passes the nonzero filter, the
structured revision short-circuits with the No Valid Data toast and
issues no call. -/
theorem structured_noValidData (rows2 : List BudgetItem2) (hne : rows2 ≠ [])
    (hnp : ∀ r ∈ rows2, rowValidNz (transformRow2 r) = false) :
    ∀ dept ward yr cy invoke,
      getAiInsights_structured (some rows2) dept ward yr cy invoke =
        ⟨[], some .noValidData, ""⟩ := by
  intro dept ward yr cy invoke
  have hie : rows2.isEmpty = false := by
    cases rows2 with
    | nil => exact absurd rfl hne
    | cons a l => rfl
  have hfe : (rows2.map transformRow2).filter rowValidNz = [] := by
    refine List.filter_eq_nil_iff.2 ?_
    intro a ha
    rcases List.mem_map.1 ha with ⟨r, hr, hra⟩
    rw [← hra]
    simp [hnp r hr]
  simp [getAiInsights_structured, hie, hfe]

/-- Helper: the tsx revision issues exactly one invoke call carrying ALL
transformed rows (it has no validity filter) whenever the input list is
non-empty. -/
theorem tsx_sends_all (rows : List BudgetItem) (hne : rows ≠ []) :
    ∀ invoke, (getAiInsights_tsx (some rows) invoke).calls =
      [.promptBody (rows.map transformRow)] := by
  intro invoke
  have hie : rows.isEmpty = false := by
    cases rows with
    | nil => exact absurd rfl hne
    | cons a l => rfl
  simp only [getAiInsights_tsx, hie, Bool.false_eq_true, if_false]
  cases invoke (.promptBody (rows.map transformRow)) with
  | err m => rfl
  | ok ins =>
      by_cases h : insightsTruthy ins = true <;> simp [h]

/-- C6 counterexample: the `AiInsights.tsx` revision neither filters
all-zero rows nor short-circuits: on an input whose single row coerces
to allocated = spent = remaining = 0 it still issues the network call,
with the all-zero row embedded in the composed request. -/
theorem c6_counterexample :
    (getAiInsights_tsx
        (some [⟨"acct", "g1", "desc", .num (.val 0), .num (.val 0), .num (.val 0)⟩])
        (fun _ => .ok (some "text"))).calls =
      [.promptBody [⟨"acct", "g1", "desc", .val 0, .val 0, .val 0⟩]] := by
  decide

/-- C6 amended: on an input list whose rows all coerce to all-zero
amounts, the filter revision and the structured revision never send the
data — both short-circuit with the No Valid Data notification and issue
no network call — while the `AiInsights.tsx` revision sends all
transformed rows unfiltered (its prompt text instead instructs the model
how to answer when every amount is zero). -/
theorem c6_amended (rows : List BudgetItem) (hne : rows ≠ [])
    (hz : ∀ r ∈ rows, (transformRow r).allocated = .val 0 ∧
      (transformRow r).spent = .val 0 ∧ (transformRow r).remaining = .val 0)
    (rows2 : List BudgetItem2) (hne2 : rows2 ≠ [])
    (hz2 : ∀ r ∈ rows2, (transformRow2 r).account_budget = .val 0 ∧
      (transformRow2 r).used_amt = .val 0 ∧ (transformRow2 r).remaining_amt = .val 0) :
    (∀ invoke, getAiInsights_filter (some rows) invoke =
        ⟨[], some .noValidData, ""⟩) ∧
    (∀ dept ward yr cy invoke,
        getAiInsights_structured (some rows2) dept ward yr cy invoke =
          ⟨[], some .noValidData, ""⟩) ∧
    (∀ invoke, (getAiInsights_tsx (some rows) invoke).calls =
        [.promptBody (rows.map transformRow)]) := by
  refine ⟨?_, ?_, ?_⟩
  · refine filter_noValidData rows hne ?_
    intro r hr
    rcases hz r hr with ⟨h1, h2, h3⟩
    simp [rowValidPos, h1, h2, h3, JNum.gtZero]
  · refine structured_noValidData rows2 hne2 ?_
    intro r hr
    rcases hz2 r hr with ⟨h1, h2, h3⟩
    simp [rowValidNz, h1, h2, h3, JNum.neZero]
  · exact tsx_sends_all rows hne

/-- C6 witness: a concrete all-zero row list: the filter revision
short-circuits with No Valid Data; the tsx revision still calls. -/
theorem c6_amended_witness :
    getAiInsights_filter
        (some [⟨"acct", "g1", "desc", .num (.val 0), .str .nan, .null⟩])
        (fun _ => .ok (some "text")) = ⟨[], some .noValidData, ""⟩ ∧
    (getAiInsights_tsx
        (some [⟨"acct", "g1", "desc", .num (.val 0), .str .nan, .null⟩])
        (fun _ => .ok (some "text"))).calls =
      [.promptBody [⟨"acct", "g1", "desc", .val 0, .val 0, .val 0⟩]] := by
  have h := c6_amended
    [⟨"acct", "g1", "desc", .num (.val 0), .str .nan, .null⟩] (by decide)
    (by decide)
    [⟨"id", "g1", .num (.val 0), .num (.val 0), .num (.val 0)⟩] (by decide)
    (by decide)
  exact ⟨h.1 (fun _ => .ok (some "text")), h.2.2 (fun _ => .ok (some "text"))⟩

/-- C7 counterexample: the DeepSeek proxy's per-row formatting does NOT
coerce non-numeric amounts to 0: it wraps only the summands in
`Number(.)` (with no `|| 0`) and divides the raw amount, so a row whose
amount is a non-numeric string makes the percentage NaN — the outbound
prompt data carries a NaN percentage. -/
theorem c7_counterexample :
    ((deepseekHandler (some "k") false
        (.parsed (some [⟨"Supplies", .str .nan⟩]) (some "Roads"))
        (fun _ => .response true 200 "" (some "t"))).2.map
      (fun c => c.promptRows.map (fun r => r.percentage))) = [[JNum.nan]] := by
  decide

/-- C7 amended: the WIDGET-side normalization `Number(x) || 0` is total
and never yields NaN for any modelled JS input, so no transformed row of
any widget revision carries NaN into the composed request; the Proxy's
percentage-share computation does not share this property. -/
theorem c7_amended :
    (∀ v : JsVal, (coerceAmount v).isNaN = false) ∧
    (∀ item : BudgetItem, (transformRow item).allocated.isNaN = false ∧
        (transformRow item).spent.isNaN = false ∧
        (transformRow item).remaining.isNaN = false) ∧
    (∀ item : BudgetItem2, (transformRow2 item).account_budget.isNaN = false ∧
        (transformRow2 item).used_amt.isNaN = false ∧
        (transformRow2 item).remaining_amt.isNaN = false) := by
  have horz : ∀ n : JNum, n.orZero.isNaN = false := by
    intro n
    cases n with
    | nan => rfl
    | inf => rfl
    | ninf => rfl
    | val a => by_cases ha : a = 0 <;> simp [JNum.orZero, JNum.isNaN, ha]
  have hco : ∀ v : JsVal, (coerceAmount v).isNaN = false := fun v => horz (jsNumber v)
  exact ⟨hco, fun item => ⟨hco _, hco _, hco _⟩, fun item => ⟨hco _, hco _, hco _⟩⟩

/-- C8 counterexample: on vendor success with the generated-text field
absent, the Gemini proxy's placeholder is "No insights generated.", not
the claimed body with "No insights returned.". -/
theorem c8_counterexample :
    (geminiHandler (some "k") (.parsed (.strVal "p"))
        (fun _ => .response true 200 "" none)).1 =
      ⟨200, .insightsObj "No insights generated."⟩ ∧
    ¬ (geminiHandler (some "k") (.parsed (.strVal "p"))
        (fun _ => .response true 200 "" none)).1.body =
      .insightsObj "No insights returned." := by
  refine ⟨rfl, by decide⟩

/-- Helper: JS `x || d` falls back to the default when the field is
absent or the empty string. -/
theorem jsOrDefault_of_falsy (o : Option String) (d : String)
    (h : strFalsy o = true) : jsOrDefault o d = d := by
  cases o with
  | none => rfl
  | some s =>
      simp only [strFalsy, decide_eq_true_eq] at h
      simp [jsOrDefault, h]

/-- C8 amended: on vendor HTTP success with the generated-text field
absent (or empty, which JS `||` also treats as missing), each proxy
responds HTTP 200 with a placeholder insights body rather than an error:
the DeepSeek proxy with "No insights returned.", the Gemini proxy with
"No insights generated.". -/
theorem c8_amended (k : String) (hk : k ≠ "")
    (bd : List DsItem) (dept : String) (hd : dept ≠ "")
    (s : String) (hs : s ≠ "")
    (st : Nat) (bodyText : String)
    (content : Option String) (hcont : strFalsy content = true) :
    (deepseekHandler (some k) false (.parsed (some bd) (some dept))
        (fun _ => .response true st bodyText content)).1 =
      ⟨200, .insightsObj "No insights returned."⟩ ∧
    (geminiHandler (some k) (.parsed (.strVal s))
        (fun _ => .response true st bodyText content)).1 =
      ⟨200, .insightsObj "No insights generated."⟩ := by
  have hkey : strFalsy (some k) = false := strFalsy_some_ne _ hk
  have hdept : strFalsy (some dept) = false := strFalsy_some_ne _ hd
  have hval : gmPromptValid (.strVal s) = true := by simp [gmPromptValid, hs]
  refine ⟨?_, ?_⟩
  · simp [deepseekHandler, hkey, hdept, jsOrDefault_of_falsy _ _ hcont]
  · simp [geminiHandler, hkey, hval, jsOrDefault_of_falsy _ _ hcont]

/-- C8 witness: concrete runs in which the vendor succeeds but returns
no extractable text. -/
theorem c8_amended_witness :
    (deepseekHandler (some "k") false (.parsed (some []) (some "Roads"))
        (fun _ => .response true 200 "" none)).1 =
      ⟨200, .insightsObj "No insights returned."⟩ ∧
    (geminiHandler (some "k") (.parsed (.strVal "p"))
        (fun _ => .response true 200 "" none)).1 =
      ⟨200, .insightsObj "No insights generated."⟩ :=
  c8_amended "k" (by decide) [] "Roads" (by decide) "p" (by decide) 200 "" none rfl

/-- C10: the filter revision's strict-positivity test drops a row whose
only non-zero coerced amount is negative exactly as it drops an all-zero
row: any non-empty input made of rows with no strictly positive coerced
amount triggers the No Valid Data notification with no network call;
the structured revision's nonzero test instead retains a row with
allocated = 0, spent = 0, remaining = -300 and sends it to the Proxy. -/
theorem c10_negative_rows (rows : List BudgetItem) (hne : rows ≠ [])
    (hnp : ∀ r ∈ rows, (transformRow r).allocated.gtZero = false ∧
        (transformRow r).spent.gtZero = false ∧
        (transformRow r).remaining.gtZero = false) :
    (∀ invoke, getAiInsights_filter (some rows) invoke =
        ⟨[], some .noValidData, ""⟩) ∧
    (getAiInsights_structured
        (some [⟨"r1", "g1", .num (.val 0), .num (.val 0), .num (.val (-300))⟩])
        "Roads" "W1" (some 2024) 2025 (fun _ => .ok (some "t"))).calls =
      [.structuredBody "Roads" "W1" 2024 [⟨"g1", .val 0, .val 0, .val (-300)⟩]] := by
  refine ⟨?_, by decide⟩
  refine filter_noValidData rows hne ?_
  intro r hr
  rcases hnp r hr with ⟨h1, h2, h3⟩
  simp [rowValidPos, h1, h2, h3]

/-- C10 witness: the concrete negative-remaining row is dropped by the
filter revision with the No Valid Data toast and no call. -/
theorem c10_negative_rows_witness :
    getAiInsights_filter
        (some [⟨"acct", "g1", "desc", .num (.val 0), .num (.val 0),
          .num (.val (-300))⟩])
        (fun _ => .ok (some "t")) = ⟨[], some .noValidData, ""⟩ :=
  (c10_negative_rows
      [⟨"acct", "g1", "desc", .num (.val 0), .num (.val 0), .num (.val (-300))⟩]
      (by decide) (by decide)).1 (fun _ => .ok (some "t"))

end CivicChain
